import Mathlib

/-!
# Verification of the Dymo label printer's rendering and recency-store logic

Shallow embedding of `src/cups_dymo_label_printer/{config,label_generator,
printer_service,web_app}.py` and the legacy `src/web_app/app.py`.

Conventions of the embedding:
* Python's float expression `int(width_mm * dpi / 25.4)` is modelled in exact
  integer arithmetic as `(width_mm * dpi * 10) / 254` (Nat floor division);
  at the catalog's millimetre values and dpi 300 the exact quotients are far
  from integers, so truncation of the float agrees with the exact floor.
* Text measurement (`draw.textbbox`) and font loading are abstracted by a
  bounding-box oracle `BBoxFn` passed as a parameter: the measured box of a
  string at a font size.
* The CUPS spooler is an external collaborator; its outcome is passed in as
  an `Except String Nat` (job id or failure message).
* The file system backing the recency store is a field `file : Option (List
  Entry)` of the store state; a write that the code's `try/except` would
  swallow is modelled by a `writeOk : Bool` parameter.
* Temporary files on disk are modelled as the list of their paths.
-/

namespace DymoLabel

/-- Python class `LabelSize` from `config.py`: one static catalog entry. -/
structure LabelSize where
  name : String
  width_mm : Nat
  height_mm : Nat
  cups : String
deriving Repr, DecidableEq

/-- Catalog `LABEL_SIZES` from `config.py`: the five-entry static catalog, keyed by
size code. -/
def LABEL_SIZES : List (String × LabelSize) :=
  [ ("11354", { name := "2-1/4 x 1-1/4 (57x32mm) Multipurpose",
                width_mm := 57, height_mm := 32, cups := "w162h90" }),
    ("30252", { name := "1-1/8 x 3-1/2 (28x89mm) Address",
                width_mm := 28, height_mm := 89, cups := "w79h252" }),
    ("30323", { name := "2-1/8 x 4 (54x101mm) Shipping",
                width_mm := 54, height_mm := 101, cups := "w153h286" }),
    ("30256", { name := "2-5/16 x 4 (59x101mm) Shipping",
                width_mm := 59, height_mm := 101, cups := "w167h286" }),
    ("99012", { name := "3-1/2 x 1-1/8 (89x36mm) Large Address",
                width_mm := 89, height_mm := 36, cups := "w252h102" }) ]

/-- Dictionary lookup `LABEL_SIZES[code]` / `code in LABEL_SIZES`. -/
def lookupSize (code : String) : Option LabelSize :=
  List.lookup code LABEL_SIZES

/-- Constant `DEFAULT_LABEL_SIZE` from `config.py`. -/
def DEFAULT_LABEL_SIZE : String := "11354"

/-- Constant `DEFAULT_DPI` from `config.py`. -/
def DEFAULT_DPI : Nat := 300

/-- Constant `DEFAULT_FONT_SIZE` from `config.py`. -/
def DEFAULT_FONT_SIZE : Int := 40

/-- Result of `draw.textbbox((0, 0), text, font=font)`: the four coordinates
of the rendered text's bounding box. -/
structure BBox where
  left : Int
  top : Int
  right : Int
  bottom : Int
deriving Repr, DecidableEq

/-- Measurement oracle standing for PIL's `draw.textbbox` with the font that
`_load_font` returns: maps a text and a font size to a bounding box. -/
def BBoxFn : Type := String → Int → BBox

/-- Expression `int(size_mm * dpi / 25.4)` in exact integer arithmetic:
`size_mm * dpi / 25.4 = size_mm * dpi * 10 / 254`, truncated. -/
def mmToPx (size_mm dpi : Nat) : Nat :=
  size_mm * dpi * 10 / 254

/-- Expression `round(size_mm * dpi / 25.4)`: what the spec claims the code computes.
Rounding half up; none of the disputed quotients is an exact half. -/
def mmToPxRound (size_mm dpi : Nat) : Nat :=
  (size_mm * dpi * 10 * 2 + 254) / (254 * 2)

/-- The image value built by `create_label_image`: its PIL mode, background
colour, pixel dimensions, the drawn text, its fill colour and position. -/
structure LabelImage where
  mode : String
  background : String
  width : Nat
  height : Nat
  text : String
  fill : String
  x : Int
  y : Int
deriving Repr, DecidableEq

/-- Function `_calculate_text_x_position` from `label_generator.py`: x-coordinate of
the text from its measured bounding box, the image width and the alignment
string (`if align == 'left' ... elif align == 'center' ... else  # right`).
Python's floor division `//` is `Int.fdiv`. -/
def calculateTextXPosition (bbox : BBoxFn) (text : String) (font_size : Int)
    (width_px : Nat) (align : String) : Int :=
  let b := bbox text font_size
  let text_width := b.right - b.left
  if align = "left" then 20
  else if align = "center" then Int.fdiv ((width_px : Int) - text_width) 2
  else (width_px : Int) - text_width - 20

/-- Function `_calculate_text_y_position` from `label_generator.py`: y-coordinate of
the vertically centred text. -/
def calculateTextYPosition (bbox : BBoxFn) (text : String) (font_size : Int)
    (height_px : Nat) : Int :=
  let b := bbox text font_size
  let text_height := b.bottom - b.top
  Int.fdiv ((height_px : Int) - text_height) 2

/-- Function `create_label_image` from `cups_dymo_label_printer/label_generator.py`:
raises `ValueError` (the `Except.error` branch) on an unknown size code,
otherwise builds a white RGB image of the catalog dimensions at the given
dpi and draws the text black at the computed position. -/
def create_label_image (bbox : BBoxFn) (text : String)
    (label_size : String) (font_size : Int) (align : String)
    (dpi : Nat) : Except String LabelImage :=
  match lookupSize label_size with
  | none => .error ("Unknown label size: " ++ label_size)
  | some size_info =>
    let width_px := mmToPx size_info.width_mm dpi
    let height_px := mmToPx size_info.height_mm dpi
    let x_position := calculateTextXPosition bbox text font_size width_px align
    let y_position := calculateTextYPosition bbox text font_size height_px
    .ok { mode := "RGB", background := "white",
          width := width_px, height := height_px,
          text := text, fill := "black",
          x := x_position, y := y_position }

/-- Function `create_label_image` from the legacy `src/web_app/app.py`: instead of
raising on an unknown size code it falls back to the catalog entry of
`'11354'` (`LABEL_SIZES.get(label_size, LABEL_SIZES['11354'])`) and always
produces an image; the dpi is fixed at 300. -/
def legacy_create_label_image (bbox : BBoxFn) (text : String)
    (label_size : String) (font_size : Int) (align : String) : LabelImage :=
  let size_info := (lookupSize label_size).getD
    { name := "2-1/4 x 1-1/4 (57x32mm) Multipurpose",
      width_mm := 57, height_mm := 32, cups := "w162h90" }
  let dpi := 300
  let width_px := mmToPx size_info.width_mm dpi
  let height_px := mmToPx size_info.height_mm dpi
  let x := calculateTextXPosition bbox text font_size width_px align
  let y := calculateTextYPosition bbox text font_size height_px
  { mode := "RGB", background := "white",
    width := width_px, height := height_px,
    text := text, fill := "black", x := x, y := y }

/-! ## Printer service (`printer_service.py`) -/

/-- Outcome of `self.connection.printFile(...)`: a CUPS job id, or an
exception message from the spooler. -/
def SpoolOutcome : Type := Except String Nat

/-- Method `PrinterService._save_temp_image`: creates a temporary file on disk (the
file system is the list of existing temp-file paths) and returns its path. -/
def save_temp_image (fs : List String) (tmp_path : String) : List String :=
  tmp_path :: fs

/-- Method `PrinterService._cleanup_temp_file`: `os.unlink(path)`, with an `OSError`
on a missing file swallowed — removing a path from the file system, a no-op
when it is absent. -/
def cleanup_temp_file (fs : List String) (path : String) : List String :=
  fs.filter (fun p => p ≠ path)

/-- Method `PrinterService.print_image`: raises `ValueError` on an unknown size
code before any temp file exists; otherwise saves the image to a fresh temp
path, submits it to the spooler (outcome passed in), wraps a spooler failure
in `RuntimeError("Failed to print: ...")`, and in the `finally` block removes
the temp file on both exits. Returns the result with the final file system. -/
def print_image (fs : List String) (tmp_path : String) (label_size : String)
    (spool : SpoolOutcome) : Except String Nat × List String :=
  match lookupSize label_size with
  | none => (.error ("Unknown label size: " ++ label_size), fs)
  | some _ =>
    let fs1 := save_temp_image fs tmp_path
    match spool with
    | .ok job_id => (.ok job_id, cleanup_temp_file fs1 tmp_path)
    | .error e => (.error ("Failed to print: " ++ e), cleanup_temp_file fs1 tmp_path)

/-! ## Recency store (`cups_dymo_label_printer/web_app.py`) -/

/-- A request body as read by `data.get(...)`: every field may be absent,
in which case the code substitutes a default. Numeric fields are modelled
as already-converted integers (`int(...)`). -/
structure Payload where
  text : Option String := none
  label_size : Option String := none
  font_size : Option Int := none
  align : Option String := none
  copies : Option Int := none
deriving Repr, DecidableEq

/-- Record `SavedLabelEntry`: one element of the `_saved_labels` stack. -/
structure Entry where
  id : String
  text : String
  label_size : String
  font_size : Int
  align : String
  copies : Int
deriving Repr, DecidableEq

/-- The dedup key type: `(text, label_size, font_size, align, copies)`. -/
def LabelKey : Type := String × String × Int × String × Int

instance : DecidableEq LabelKey := by
  unfold LabelKey
  infer_instance

/-- Function `_label_key(payload)`: the dedup tuple, with the code's defaults for
absent fields. -/
def label_key (p : Payload) : LabelKey :=
  (p.text.getD "",
   p.label_size.getD DEFAULT_LABEL_SIZE,
   p.font_size.getD DEFAULT_FONT_SIZE,
   p.align.getD "center",
   p.copies.getD 1)

/-- A saved entry read back as a payload: every field present. `_label_key`
applied to a stored entry dict goes through this view. -/
def Entry.toPayload (e : Entry) : Payload :=
  { text := some e.text, label_size := some e.label_size,
    font_size := some e.font_size, align := some e.align,
    copies := some e.copies }

/-- Key `_label_key(entry)` for a stored entry. -/
def entryKey (e : Entry) : LabelKey :=
  label_key e.toPayload

/-- Process-wide mutable state: the in-memory `_saved_labels` list and the
contents of the configured persistence file (`none` = no well-formed JSON
list on disk). -/
structure StoreState where
  labels : List Entry
  file : Option (List Entry)
deriving Repr, DecidableEq

/-- Function `_persist_memory`: serialize the whole in-memory list to the configured
path; any exception is swallowed (`writeOk = false` leaves the file as it
was and surfaces nothing). -/
def persist_memory (writeOk : Bool) (s : StoreState) : StoreState :=
  if writeOk then { s with file := some s.labels } else s

/-- The new entry `_save_label` builds from a payload and the fresh
`uuid.uuid4()` string. -/
def newEntry (p : Payload) (freshId : String) : Entry :=
  { id := freshId,
    text := p.text.getD "",
    label_size := p.label_size.getD DEFAULT_LABEL_SIZE,
    font_size := p.font_size.getD DEFAULT_FONT_SIZE,
    align := p.align.getD "center",
    copies := p.copies.getD 1 }

/-- Function `_save_label`: drop every stored entry whose dedup key equals the
payload's, insert the fresh entry at position 0, persist, return the new
entry together with the new state. -/
def save_label (writeOk : Bool) (s : StoreState) (p : Payload)
    (freshId : String) : Entry × StoreState :=
  let key := label_key p
  let filtered := s.labels.filter (fun entry => entryKey entry ≠ key)
  let new_entry := newEntry p freshId
  let s1 := persist_memory writeOk { s with labels := new_entry :: filtered }
  (new_entry, s1)

/-- Function `_delete_labels`: keep exactly the entries whose id is not in the given
id set, then persist. -/
def delete_labels (writeOk : Bool) (s : StoreState) (ids : List String) :
    StoreState :=
  let remaining := s.labels.filter (fun entry => entry.id ∉ ids)
  persist_memory writeOk { s with labels := remaining }

/-- What `json.load` can find in the persistence file at startup. -/
inductive FileContent where
  /-- Check `os.path.exists` is false. -/
  | missing
  /-- Call to `open` or `json.load` raises (unreadable file or invalid JSON). -/
  | unreadable
  /-- A JSON value that is a list of entries. -/
  | jsonList (entries : List Entry)
  /-- A well-formed JSON value that is not a list. -/
  | jsonOther
deriving Repr, DecidableEq

/-- Function `_load_memory`: the in-memory list after the startup load, given its
previous value (`[]` at module import) and the file's content. A non-list
payload passes the `isinstance` guard silently, leaving the previous value
in place; a missing or unreadable file yields `[]`. -/
def load_memory (prev : List Entry) (fc : FileContent) : List Entry :=
  match fc with
  | .missing => []
  | .unreadable => []
  | .jsonList entries => entries
  | .jsonOther => prev

/-! ## The `/print` route (`web_app.py`, `print_label`) -/

/-- An HTTP response of the `/print` route: success with a job id, a 400
client error, or a 500 server error. -/
inductive HttpResult where
  | ok (job_id : Nat)
  | clientError (msg : String)
  | serverError (msg : String)
deriving Repr, DecidableEq

/-- The `/print` handler: parse fields with defaults, reject empty text with
a 400 before anything else, render (`ValueError` becomes a 400), submit to
the spooler through `print_image` (`RuntimeError` becomes a 500), and only
on success record the submission in the recency store. The temp-file path
and fresh id are parameters standing for `tempfile` and `uuid4`. -/
def print_label (writeOk : Bool) (s : StoreState) (p : Payload)
    (bbox : BBoxFn) (fs : List String) (tmp_path : String) (freshId : String)
    (spool : SpoolOutcome) : HttpResult × StoreState × List String :=
  let text := p.text.getD ""
  let label_size := p.label_size.getD DEFAULT_LABEL_SIZE
  let font_size := p.font_size.getD DEFAULT_FONT_SIZE
  let align := p.align.getD "center"
  if text = "" then (.clientError "No text provided", s, fs)
  else
    match create_label_image bbox text label_size font_size align
      DEFAULT_DPI with
    | .error e => (.clientError e, s, fs)
    | .ok _image =>
      match print_image fs tmp_path label_size spool with
      | (.error e, fs1) => (.serverError e, s, fs1)
      | (.ok job_id, fs1) =>
        (.ok job_id, (save_label writeOk s p freshId).2, fs1)

/-! ## Theorems -/

/-- C7: at process start (previous in-memory value `[]`), loading the
recency store yields the empty list when the file is missing, unreadable,
or its payload is not a JSON list, surfacing no error; and when the file
holds a JSON list, the in-memory list equals the file's contents verbatim. -/
theorem C7_load_memory :
    load_memory [] .missing = [] ∧
    load_memory [] .unreadable = [] ∧
    load_memory [] .jsonOther = [] ∧
    ∀ entries : List Entry, load_memory [] (.jsonList entries) = entries := by
  refine ⟨rfl, rfl, rfl, fun entries => rfl⟩

/-- C6: both mutations of the recency list serialize the whole post-mutation
list to the file when the write succeeds; when the write fails the error is
swallowed: the operation returns the same entry, the in-memory list holds
the same post-mutation state, and the file is left as it was. -/
theorem C6_persistence (s : StoreState) (p : Payload) (freshId : String)
    (ids : List String) :
    ((save_label true s p freshId).2.file =
        some (save_label true s p freshId).2.labels) ∧
    ((delete_labels true s ids).file = some (delete_labels true s ids).labels) ∧
    ((save_label false s p freshId).1 = (save_label true s p freshId).1 ∧
      (save_label false s p freshId).2.labels =
        (save_label true s p freshId).2.labels ∧
      (save_label false s p freshId).2.file = s.file) ∧
    ((delete_labels false s ids).labels = (delete_labels true s ids).labels ∧
      (delete_labels false s ids).file = s.file) := by
  refine ⟨rfl, rfl, ⟨rfl, rfl, rfl⟩, rfl, rfl⟩

/-- C8: for every measurement oracle, text, font size and image width, the
horizontal text position is 20 for the `left` alignment,
`width - text_width - 20` for `right`, and `(width - text_width) / 2`
(floor division) for `center`, where `text_width` is the measured
bounding-box width; the vertical position is `(height - text_height) / 2`
for every alignment. -/
theorem C8_text_position (bbox : BBoxFn) (text : String) (font_size : Int)
    (width_px height_px : Nat) :
    calculateTextXPosition bbox text font_size width_px "left" = 20 ∧
    calculateTextXPosition bbox text font_size width_px "right" =
      (width_px : Int) -
        ((bbox text font_size).right - (bbox text font_size).left) - 20 ∧
    calculateTextXPosition bbox text font_size width_px "center" =
      Int.fdiv ((width_px : Int) -
        ((bbox text font_size).right - (bbox text font_size).left)) 2 ∧
    ∀ _align : String, calculateTextYPosition bbox text font_size height_px =
      Int.fdiv ((height_px : Int) -
        ((bbox text font_size).bottom - (bbox text font_size).top)) 2 := by
  refine ⟨rfl, ?_, ?_, fun _ => rfl⟩
  · simp [calculateTextXPosition]
  · simp [calculateTextXPosition]

/-- A constant measurement oracle used for concrete instantiations. -/
def constBBox : BBoxFn := fun _ _ => { left := 0, top := 0, right := 100, bottom := 50 }

/-- C1 counterexample: the code truncates `width_mm * dpi / 25.4` with
`int(...)` rather than rounding. At size code `11354` and 300 dpi the height
is `int(32*300/25.4) = 377`, while `round(32*300/25.4) = 378`: rendering
"Hello" at font size 40, center alignment, 300 dpi yields a 673×377 image,
not the claimed 673×378, and its height differs from the rounding formula. -/
theorem C1_counterexample :
    create_label_image constBBox "Hello" "11354" 40 "center" 300 =
      .ok { mode := "RGB", background := "white", width := 673, height := 377,
            text := "Hello", fill := "black", x := 286, y := 163 } ∧
    mmToPxRound 57 300 = 673 ∧
    mmToPxRound 32 300 = 378 ∧
    (377 : Nat) ≠ mmToPxRound 32 300 := by
  refine ⟨rfl, rfl, rfl, by decide⟩

/-- C1 (amended): for every valid size code and every dpi, the image
returned by `create_label_image` has pixel width `int(width_mm*dpi/25.4)`
and pixel height `int(height_mm*dpi/25.4)` — truncation, not rounding — so
rendering "Hello" at size code `11354`, font size 40, center alignment and
300 dpi yields a 673×377-pixel white-background RGB image. -/
theorem C1_dimensions (bbox : BBoxFn) (text label_size : String)
    (font_size : Int) (align : String) (dpi : Nat) (spec : LabelSize)
    (h : lookupSize label_size = some spec) :
    ∃ img : LabelImage,
      create_label_image bbox text label_size font_size align dpi = .ok img ∧
      img.width = mmToPx spec.width_mm dpi ∧
      img.height = mmToPx spec.height_mm dpi ∧
      img.mode = "RGB" ∧ img.background = "white" := by
  unfold create_label_image
  rw [h]
  exact ⟨_, rfl, rfl, rfl, rfl, rfl⟩

/-- C1 witness: the amended dimension law at the spec's example input, where
it gives the 673×377-pixel image. -/
theorem C1_dimensions_witness :
    ∃ img : LabelImage,
      create_label_image constBBox "Hello" "11354" 40 "center" 300 = .ok img ∧
      img.width = 673 ∧ img.height = 377 ∧ img.mode = "RGB" ∧
      img.background = "white" := by
  obtain ⟨img, h1, h2, h3, h4, h5⟩ :=
    C1_dimensions constBBox "Hello" "11354" 40 "center" 300
      { name := "2-1/4 x 1-1/4 (57x32mm) Multipurpose",
        width_mm := 57, height_mm := 32, cups := "w162h90" } rfl
  exact ⟨img, h1, h2.trans (by decide), h3.trans (by decide), h4, h5⟩

/-- C2 counterexample: the legacy renderer `create_label_image` in
`src/web_app/app.py` is also part of the repository's rendering code, and
for a size code absent from the catalog it does not fail: it silently falls
back to the `11354` entry and produces a 673×377 image. -/
theorem C2_counterexample :
    lookupSize "99999" = none ∧
    legacy_create_label_image constBBox "Hello" "99999" 40 "center" =
      { mode := "RGB", background := "white", width := 673, height := 377,
        text := "Hello", fill := "black", x := 286, y := 163 } := by
  refine ⟨rfl, rfl⟩

/-- C2 (amended): the package renderer
`cups_dymo_label_printer.label_generator.create_label_image` raises the
unknown-size `ValueError` for every size code not in the catalog and never
produces an image, produces an image (raising no such error) for every
catalog code, and `PrinterService.print_image` likewise rejects unknown
codes; the legacy `src/web_app/app.py` renderer instead renders every
unknown code as if it were the default size `11354`. -/
theorem C2_unknown_size :
    (∀ (bbox : BBoxFn) (text label_size : String) (font_size : Int)
        (align : String) (dpi : Nat), lookupSize label_size = none →
        create_label_image bbox text label_size font_size align dpi =
          .error ("Unknown label size: " ++ label_size)) ∧
    (∀ (bbox : BBoxFn) (text label_size : String) (font_size : Int)
        (align : String) (dpi : Nat) (spec : LabelSize),
        lookupSize label_size = some spec →
        ∃ img : LabelImage,
          create_label_image bbox text label_size font_size align dpi =
            .ok img) ∧
    (∀ (fs : List String) (tmp_path label_size : String)
        (spool : SpoolOutcome), lookupSize label_size = none →
        (print_image fs tmp_path label_size spool).1 =
          .error ("Unknown label size: " ++ label_size)) ∧
    (∀ (bbox : BBoxFn) (text label_size : String) (font_size : Int)
        (align : String), lookupSize label_size = none →
        legacy_create_label_image bbox text label_size font_size align =
          legacy_create_label_image bbox text DEFAULT_LABEL_SIZE font_size
            align) := by
  refine ⟨?_, ?_, ?_, ?_⟩
  · intro bbox text label_size font_size align dpi h
    unfold create_label_image
    rw [h]
  · intro bbox text label_size font_size align dpi spec h
    unfold create_label_image
    rw [h]
    exact ⟨_, rfl⟩
  · intro fs tmp_path label_size spool h
    unfold print_image
    rw [h]
  · intro bbox text label_size font_size align h
    unfold legacy_create_label_image
    rw [h]
    rfl

/-- C2 witness: the amended behaviour at concrete codes: `00000` is rejected
by the package renderer and by `print_image`, `30252` renders, and the
legacy renderer treats `00000` like `11354`. -/
theorem C2_unknown_size_witness :
    (create_label_image constBBox "Hi" "00000" 40 "center" 300 =
      .error ("Unknown label size: " ++ "00000")) ∧
    (∃ img : LabelImage,
      create_label_image constBBox "Hi" "30252" 40 "left" 300 = .ok img) ∧
    ((print_image [] "/tmp/a.png" "00000" (.ok 7)).1 =
      .error ("Unknown label size: " ++ "00000")) ∧
    (legacy_create_label_image constBBox "Hi" "00000" 40 "center" =
      legacy_create_label_image constBBox "Hi" DEFAULT_LABEL_SIZE 40
        "center") := by
  refine ⟨C2_unknown_size.1 constBBox "Hi" "00000" 40 "center" 300 rfl,
    C2_unknown_size.2.1 constBBox "Hi" "30252" 40 "left" 300
      { name := "1-1/8 x 3-1/2 (28x89mm) Address",
        width_mm := 28, height_mm := 89, cups := "w79h252" } rfl,
    C2_unknown_size.2.2.1 [] "/tmp/a.png" "00000" (.ok 7) rfl,
    C2_unknown_size.2.2.2 constBBox "Hi" "00000" 40 "center" rfl⟩

/-- Shared helper: the in-memory list after a delete is the filter of the
previous list by id, whether or not persistence succeeds. -/
theorem delete_labels_labels (writeOk : Bool) (s : StoreState)
    (ids : List String) :
    (delete_labels writeOk s ids).labels =
      s.labels.filter (fun entry => entry.id ∉ ids) := by
  unfold delete_labels persist_memory
  cases writeOk <;> rfl

/-- C4: deleting a set of ids removes exactly the entries whose id is in the
set, keeps all other entries in their relative order, and ids matching no
entry cause no error and no change: deleting only absent ids is a no-op. -/
theorem C4_delete (writeOk : Bool) (s : StoreState) (ids : List String) :
    (delete_labels writeOk s ids).labels.Sublist s.labels ∧
    (∀ e : Entry, e ∈ (delete_labels writeOk s ids).labels ↔
      e ∈ s.labels ∧ e.id ∉ ids) ∧
    ((∀ e ∈ s.labels, e.id ∉ ids) →
      (delete_labels writeOk s ids).labels = s.labels) := by
  rw [delete_labels_labels]
  refine ⟨List.filter_sublist _, ?_, ?_⟩
  · intro e
    simp [List.mem_filter]
  · intro h
    exact List.filter_eq_self.mpr (fun e he => by simpa using h e he)

/-- C4 witness: the delete law at a concrete two-entry list, deleting one
present id together with one absent id, and the no-op part at a disjoint
id set. -/
theorem C4_delete_witness :
    (∀ e : Entry, e ∈ (delete_labels true
        { labels := [{ id := "a", text := "x", label_size := "11354",
                       font_size := 40, align := "center", copies := 1 },
                     { id := "b", text := "y", label_size := "30252",
                       font_size := 30, align := "left", copies := 2 }],
          file := none } ["a", "zzz"]).labels ↔
      e ∈ [{ id := "a", text := "x", label_size := "11354",
             font_size := 40, align := "center", copies := 1 },
           { id := "b", text := "y", label_size := "30252",
             font_size := 30, align := "left", copies := 2 }] ∧
        e.id ∉ ["a", "zzz"]) ∧
    (delete_labels true
        { labels := [{ id := "a", text := "x", label_size := "11354",
                       font_size := 40, align := "center", copies := 1 }],
          file := none } ["zzz"]).labels =
      [{ id := "a", text := "x", label_size := "11354",
         font_size := 40, align := "center", copies := 1 }] := by
  refine ⟨(C4_delete true _ _).2.1, (C4_delete true _ _).2.2 ?_⟩
  decide

/-- C9: whatever the spooler outcome, the temporary file created for a
submission does not survive `print_image`: it is removed before the job id
is returned and before a failure is propagated; and on the unknown-size
path no temporary file is ever created. -/
theorem C9_temp_cleanup (fs : List String) (tmp_path label_size : String)
    (spool : SpoolOutcome) (h : tmp_path ∉ fs) :
    tmp_path ∉ (print_image fs tmp_path label_size spool).2 ∧
    (lookupSize label_size = none →
      (print_image fs tmp_path label_size spool).2 = fs) := by
  unfold print_image
  cases hls : lookupSize label_size with
  | none => exact ⟨h, fun _ => rfl⟩
  | some spec =>
    refine ⟨?_, fun hnone => absurd hnone (by simp)⟩
    cases spool with
    | ok job_id =>
      simp [cleanup_temp_file, save_temp_image, List.mem_filter]
    | error e =>
      simp [cleanup_temp_file, save_temp_image, List.mem_filter]

/-- C9 witness: the cleanup law at a concrete submission: on spooler success
and on spooler failure the temp path is gone, and an unknown size code
leaves the file system untouched. -/
theorem C9_temp_cleanup_witness :
    ("/tmp/lbl.png" ∉ (print_image ["/tmp/other.png"] "/tmp/lbl.png" "11354"
        (.ok 3)).2) ∧
    ("/tmp/lbl.png" ∉ (print_image ["/tmp/other.png"] "/tmp/lbl.png" "11354"
        (.error "printer on fire")).2) ∧
    ((print_image ["/tmp/other.png"] "/tmp/lbl.png" "00000" (.ok 3)).2 =
      ["/tmp/other.png"]) := by
  refine ⟨(C9_temp_cleanup _ _ _ _ ?_).1, (C9_temp_cleanup _ _ _ _ ?_).1,
    (C9_temp_cleanup _ _ _ _ ?_).2 rfl⟩ <;> decide

/-- C10: the print endpoint rejects every request whose text is empty or
absent with the 400 client error "No text provided" before rendering or
submitting anything: the response is fully determined, the recency store
and the file system are unchanged (no temp file, no spooler job, no store
entry) — even though rendering empty text itself succeeds. -/
theorem C10_empty_text (writeOk : Bool) (s : StoreState) (p : Payload)
    (bbox : BBoxFn) (fs : List String) (tmp_path freshId : String)
    (spool : SpoolOutcome) (h : p.text.getD "" = "") :
    print_label writeOk s p bbox fs tmp_path freshId spool =
      (.clientError "No text provided", s, fs) ∧
    (∀ (font_size : Int) (align : String) (dpi : Nat),
      ∃ img : LabelImage,
        create_label_image bbox "" DEFAULT_LABEL_SIZE font_size align dpi =
          .ok img) := by
  constructor
  · unfold print_label
    rw [h]
    rfl
  · intro font_size align dpi
    exact ⟨_, rfl⟩

/-- C10 witness: the empty-text rejection at a concrete request whose text
field is the empty string. -/
theorem C10_empty_text_witness :
    print_label true { labels := [], file := none }
        { text := some "", label_size := some "11354", font_size := some 40,
          align := some "center", copies := some 1 }
        constBBox [] "/tmp/lbl.png" "id-1" (.ok 3) =
      (.clientError "No text provided", { labels := [], file := none },
        ([] : List String)) :=
  (C10_empty_text true { labels := [], file := none }
    { text := some "", label_size := some "11354", font_size := some 40,
      align := some "center", copies := some 1 }
    constBBox [] "/tmp/lbl.png" "id-1" (.ok 3) rfl).1

/-- One mutation of the recency store: an HTTP-driven save (with the fresh
uuid the code draws) or a delete. -/
inductive StoreOp where
  | save (p : Payload) (freshId : String)
  | delete (ids : List String)

/-- Application of one store mutation to the process state. -/
def applyOp (writeOk : Bool) (s : StoreState) : StoreOp → StoreState
  | .save p freshId => (save_label writeOk s p freshId).2
  | .delete ids => delete_labels writeOk s ids

/-- The process state after a sequence of save and delete operations,
starting from the empty in-memory list. -/
def runOps (writeOk : Bool) (file0 : Option (List Entry))
    (ops : List StoreOp) : StoreState :=
  ops.foldl (applyOp writeOk) { labels := [], file := file0 }

/-- The invariant: at most one entry per distinct dedup key. -/
def KeysDistinct (l : List Entry) : Prop :=
  l.Pairwise (fun a b => entryKey a ≠ entryKey b)

/-- Shared helper: the entry `_save_label` builds carries exactly the
payload's dedup key. -/
theorem entryKey_newEntry (p : Payload) (freshId : String) :
    entryKey (newEntry p freshId) = label_key p := rfl

/-- Shared helper: the in-memory list after a save is the fresh entry in
front of the previous list purged of the payload's key, whether or not
persistence succeeds. -/
theorem save_label_labels (writeOk : Bool) (s : StoreState) (p : Payload)
    (freshId : String) :
    (save_label writeOk s p freshId).2.labels =
      newEntry p freshId ::
        s.labels.filter (fun entry => entryKey entry ≠ label_key p) := by
  unfold save_label persist_memory
  cases writeOk <;> rfl

/-- Shared helper: the entry returned by a save is the fresh entry. -/
theorem save_label_fst (writeOk : Bool) (s : StoreState) (p : Payload)
    (freshId : String) :
    (save_label writeOk s p freshId).1 = newEntry p freshId := rfl

/-- Shared helper: a save preserves key-distinctness. -/
theorem KeysDistinct_save (writeOk : Bool) (s : StoreState) (p : Payload)
    (freshId : String) (h : KeysDistinct s.labels) :
    KeysDistinct (save_label writeOk s p freshId).2.labels := by
  rw [save_label_labels]
  refine List.Pairwise.cons ?_ (h.filter _)
  intro b hb
  rw [List.mem_filter] at hb
  rw [entryKey_newEntry]
  intro heq
  have hb2 : entryKey b ≠ label_key p := by simpa using hb.2
  exact hb2 heq.symm

/-- Shared helper: a delete preserves key-distinctness. -/
theorem KeysDistinct_delete (writeOk : Bool) (s : StoreState)
    (ids : List String) (h : KeysDistinct s.labels) :
    KeysDistinct (delete_labels writeOk s ids).labels := by
  rw [delete_labels_labels]
  exact h.filter _

/-- Shared helper: key-distinctness is preserved along any fold of store
operations. -/
theorem KeysDistinct_foldl (writeOk : Bool) (ops : List StoreOp) :
    ∀ s : StoreState, KeysDistinct s.labels →
      KeysDistinct (ops.foldl (applyOp writeOk) s).labels := by
  induction ops with
  | nil => exact fun s h => h
  | cons op rest ih =>
    intro s h
    refine ih _ ?_
    cases op with
    | save p freshId => exact KeysDistinct_save writeOk s p freshId h
    | delete ids => exact KeysDistinct_delete writeOk s ids h

/-- C3: after every sequence of save and delete operations from the empty
store, the recency list holds at most one entry per distinct
`(text, label_size, font_size, align, copies)` tuple; and saving a payload
whose dedup key matches an existing entry removes that entry and puts at
the front a new entry with the same key fields but the fresh id, which
(the uuid being fresh) differs from the removed entry's id. -/
theorem C3_dedup_invariant (writeOk : Bool) :
    (∀ (file0 : Option (List Entry)) (ops : List StoreOp),
      KeysDistinct (runOps writeOk file0 ops).labels) ∧
    (∀ (s : StoreState) (p : Payload) (freshId : String),
      freshId ∉ s.labels.map Entry.id →
      (save_label writeOk s p freshId).2.labels.head? =
        some (newEntry p freshId) ∧
      (save_label writeOk s p freshId).1 = newEntry p freshId ∧
      ∀ e ∈ s.labels, entryKey e = label_key p →
        e ∉ (save_label writeOk s p freshId).2.labels ∧
        entryKey (newEntry p freshId) = entryKey e ∧
        (newEntry p freshId).id ≠ e.id) := by
  constructor
  · intro file0 ops
    exact KeysDistinct_foldl writeOk ops _ List.Pairwise.nil
  · intro s p freshId hfresh
    refine ⟨by rw [save_label_labels]; rfl,
      save_label_fst writeOk s p freshId, ?_⟩
    intro e he hkey
    have hid : (newEntry p freshId).id ≠ e.id := by
      intro hcontra
      apply hfresh
      have hfe : freshId = e.id := hcontra
      rw [hfe]
      exact List.mem_map_of_mem Entry.id he
    refine ⟨?_, by rw [entryKey_newEntry, hkey], hid⟩
    rw [save_label_labels]
    intro hmem
    rcases List.mem_cons.mp hmem with hhead | htail
    · exact hid (by rw [hhead])
    · rw [List.mem_filter] at htail
      have ht2 : entryKey e ≠ label_key p := by simpa using htail.2
      exact ht2 hkey

/-- A sample payload used for concrete instantiations. -/
def samplePayload : Payload :=
  { text := some "milk", label_size := some "11354", font_size := some 40,
    align := some "center", copies := some 1 }

/-- A sample stored entry whose dedup key equals `samplePayload`'s. -/
def sampleEntry : Entry :=
  { id := "old-id", text := "milk", label_size := "11354", font_size := 40,
    align := "center", copies := 1 }

/-- A sample store holding `sampleEntry`. -/
def sampleStore : StoreState :=
  { labels := [sampleEntry], file := none }

/-- C3 witness: the invariant after a concrete duplicate-saving run, and the
dedup-replacement law at a store holding one entry with the same key as the
payload being saved. -/
theorem C3_dedup_invariant_witness :
    KeysDistinct (runOps true none
      [StoreOp.save samplePayload "id-1",
       StoreOp.save samplePayload "id-2"]).labels ∧
    (sampleEntry ∉ (save_label true sampleStore samplePayload
        "fresh-id").2.labels ∧
      entryKey (newEntry samplePayload "fresh-id") = entryKey sampleEntry ∧
      (newEntry samplePayload "fresh-id").id ≠ sampleEntry.id) := by
  refine ⟨(C3_dedup_invariant true).1 none _, ?_⟩
  exact ((C3_dedup_invariant true).2 sampleStore samplePayload "fresh-id"
    (by decide)).2.2 sampleEntry (by decide) (by decide)

/-- C5: in the print path the recency store records the submission only
after the spooler submission succeeds: every client-error exit (empty text
or render failure) and every server-error exit (spooler failure) propagates
the failure and leaves the recency store exactly as it was, while a
successful submission leaves the store holding the deduplicated new entry
of `_save_label`. -/
theorem C5_record_after_submit (writeOk : Bool) (s : StoreState)
    (p : Payload) (bbox : BBoxFn) (fs : List String)
    (tmp_path freshId : String) (spool : SpoolOutcome) :
    (∀ msg : String,
      (print_label writeOk s p bbox fs tmp_path freshId spool).1 =
        .clientError msg →
      (print_label writeOk s p bbox fs tmp_path freshId spool).2.1 = s) ∧
    (∀ msg : String,
      (print_label writeOk s p bbox fs tmp_path freshId spool).1 =
        .serverError msg →
      (print_label writeOk s p bbox fs tmp_path freshId spool).2.1 = s) ∧
    (∀ job_id : Nat,
      (print_label writeOk s p bbox fs tmp_path freshId spool).1 =
        .ok job_id →
      (print_label writeOk s p bbox fs tmp_path freshId spool).2.1 =
        (save_label writeOk s p freshId).2) := by
  unfold print_label
  dsimp only
  split
  · exact ⟨fun msg _ => rfl, fun msg hm => by simp at hm,
      fun job_id hj => by simp at hj⟩
  · split
    · exact ⟨fun msg _ => rfl, fun msg hm => by simp at hm,
        fun job_id hj => by simp at hj⟩
    · split
      · exact ⟨fun msg hm => by simp at hm, fun msg _ => rfl,
          fun job_id hj => by simp at hj⟩
      · exact ⟨fun msg hm => by simp at hm, fun msg hm => by simp at hm,
          fun job_id _ => rfl⟩

/-- C5 witness: the print path at a concrete request: on spooler failure
the store is unchanged, and on spooler success the store is the saved
store. -/
theorem C5_record_after_submit_witness :
    ((print_label true sampleStore samplePayload constBBox [] "/tmp/l.png"
        "fresh-id" (.error "spooler down")).2.1 = sampleStore) ∧
    ((print_label true sampleStore samplePayload constBBox [] "/tmp/l.png"
        "fresh-id" (.ok 5)).2.1 =
      (save_label true sampleStore samplePayload "fresh-id").2) := by
  refine ⟨(C5_record_after_submit true sampleStore samplePayload constBBox []
      "/tmp/l.png" "fresh-id" (.error "spooler down")).2.1
      ("Failed to print: " ++ "spooler down") rfl,
    (C5_record_after_submit true sampleStore samplePayload constBBox []
      "/tmp/l.png" "fresh-id" (.ok 5)).2.2 5 rfl⟩

end DymoLabel
